import Mathlib

/-!
# Verification of the go-docker diagnostic HTTP server

Shallow embedding of `hello_server.go` (package `main`): the client-IP
resolver, the user-agent classifier, the request handlers (greeting, echo,
cache lookup), the cache-connection configuration, and the shutdown
lifecycle.  Go strings are modelled as Lean `String` (a list of characters;
the Go code only slices at ASCII delimiters, where byte and character
positions coincide).  Header and query collections are modelled as ordered
association lists of key/value pairs with keys already in canonical form;
`Get` returns the first value for the key, or `""` when absent, exactly as
`net/textproto.MIMEHeader.Get` and `net/url.Values.Get` do.
-/

namespace GoDocker

/-- Embedding of Go `unicode.IsSpace` (the Unicode White_Space property),
used by `strings.TrimSpace`. -/
def goIsSpace (c : Char) : Bool :=
  c.toNat = 9 || c.toNat = 10 || c.toNat = 11 || c.toNat = 12 ||
  c.toNat = 13 || c.toNat = 32 || c.toNat = 0x85 || c.toNat = 0xA0 ||
  c.toNat = 0x1680 || (0x2000 ≤ c.toNat && c.toNat ≤ 0x200A) ||
  c.toNat = 0x2028 || c.toNat = 0x2029 || c.toNat = 0x202F ||
  c.toNat = 0x205F || c.toNat = 0x3000

/-- Embedding of Go `strings.TrimSpace`: drop leading and trailing
white-space characters. -/
def goTrimSpace (s : String) : String :=
  String.mk (((s.toList.dropWhile goIsSpace).reverse.dropWhile goIsSpace).reverse)

/-- Embedding of Go `strings.Split` with a single-character separator,
on the character-list level: split around every occurrence of `sep`.
`goSplitList sep l` is never `[]` (for empty input it is `[[]]`, as in Go). -/
def goSplitList (sep : Char) : List Char → List (List Char)
  | [] => [[]]
  | c :: rest =>
    if c = sep then [] :: goSplitList sep rest
    else
      match goSplitList sep rest with
      | [] => [[c]]
      | h :: t => (c :: h) :: t

/-- Embedding of Go `strings.Split(s, sep)` for a one-character separator. -/
def goSplit (s : String) (sep : Char) : List String :=
  (goSplitList sep s.toList).map String.mk

/-- `listContains pat hay`: does `pat` occur as a contiguous run inside
`hay`?  Mirrors Go `strings.Contains` (which is `true` for the empty
pattern). -/
def listContains (pat : List Char) : List Char → Bool
  | [] => pat.isEmpty
  | c :: rest => pat.isPrefixOf (c :: rest) || listContains pat rest

/-- Embedding of Go `strings.Contains(s, sub)`. -/
def goContains (s sub : String) : Bool :=
  listContains sub.toList s.toList

/-- Index of the last occurrence of `c` in `l`, if any
(Go `bytealg.LastIndexByteString`). -/
def lastIdx (c : Char) (l : List Char) : Option Nat :=
  match (l.reverse.findIdx? (fun d => d = c)) with
  | none => none
  | some j => some (l.length - 1 - j)

/-- Index of the first occurrence of `c` in `l`, if any
(Go `bytealg.IndexByteString`). -/
def firstIdx (c : Char) (l : List Char) : Option Nat :=
  l.findIdx? (fun d => d = c)

/-- Embedding of Go `net.SplitHostPort`: parse `"host:port"` (with optional
`[...]` around an IPv6 host) into the host and port parts; `none` is the
error return.  Follows the stdlib implementation: the port starts after the
last colon; a leading `[` must be matched by a `]` that sits just before
that colon; an unbracketed host may not itself contain a colon; no stray
`[` or `]` may remain. -/
def splitHostPort (s : String) : Option (String × String) :=
  let cs := s.toList
  match lastIdx ':' cs with
  | none => none
  | some i =>
    let jkHost : Option (Nat × Nat × List Char) :=
      if cs.head? = some '[' then
        match firstIdx ']' cs with
        | none => none
        | some e =>
          if e + 1 = cs.length then none
          else if e + 1 = i then some (1, e + 1, (cs.take e).drop 1)
          else none
      else
        let host := cs.take i
        if host.contains ':' then none else some (0, 0, host)
    match jkHost with
    | none => none
    | some (j, k, host) =>
      if (cs.drop j).contains '[' then none
      else if (cs.drop k).contains ']' then none
      else some (String.mk host, String.mk (cs.drop (i + 1)))

/-- `Get` on an ordered key/value association list: first value for the
key, `""` when the key is absent.  Models both
`net/textproto.MIMEHeader.Get` (keys pre-canonicalised) and
`net/url.Values.Get`. -/
def assocGet (kvs : List (String × String)) (k : String) : String :=
  match kvs.find? (fun p => p.fst = k) with
  | none => ""
  | some p => p.snd

/-- HTTP method of a request reaching the handlers under scrutiny; the
router restricts `/echo` to `GET` and `POST`, and the echo handler treats
every non-`GET` request through its `POST` path. -/
inductive Method
  | GET
  | POST
  deriving DecidableEq, Repr

/-- An inbound HTTP request, restricted to the fields the embedded
handlers consume.  `body` is the outcome `io.ReadAll(r.Body)` would
produce: `some bytes` on success, `none` when reading fails. -/
structure Request where
  method : Method
  headers : List (String × String)
  query : List (String × String)
  remoteAddr : String
  body : Option String
  deriving DecidableEq, Repr

/-- An outbound HTTP response: status code and body text.  Handlers that
never call `WriteHeader` respond 200, as `net/http` does on first write. -/
structure Response where
  status : Nat
  body : String
  deriving DecidableEq, Repr

/-- Embedding of `getClientIP` (hello_server.go lines 174–190). -/
def getClientIP (r : Request) : String :=
  let xff := assocGet r.headers "X-Forwarded-For"
  if xff ≠ "" then
    goTrimSpace ((goSplit xff ',').headD "")
  else
    let xr := assocGet r.headers "X-Real-Ip"
    if xr ≠ "" then xr
    else
      match splitHostPort r.remoteAddr with
      | some hp => hp.fst
      | none => r.remoteAddr

/-- Browser classification from `userAgentHandler` (hello_server.go lines
207–223): the Go `switch` is an ordered chain of substring tests with
default label `"Unknown"`. -/
def classifyBrowser (ua : String) : String :=
  if goContains ua "OPR" || goContains ua "Opera" then "Opera"
  else if goContains ua "Edg" || goContains ua "Edge" then "Edge"
  else if goContains ua "Chrome" && !goContains ua "Chromium" then "Chrome"
  else if goContains ua "Chromium" then "Chromium"
  else if goContains ua "Firefox" then "Firefox"
  else if goContains ua "Safari" && !goContains ua "Chrome" then "Safari"
  else if goContains ua "MSIE" || goContains ua "Trident" then "Internet Explorer"
  else "Unknown"

/-- Operating-system classification from `userAgentHandler`
(hello_server.go lines 225–237). -/
def classifyOS (ua : String) : String :=
  if goContains ua "Windows" then "Windows"
  else if goContains ua "Macintosh" then "macOS"
  else if goContains ua "Android" then "Android"
  else if goContains ua "iPhone" || goContains ua "iPad" then "iOS"
  else if goContains ua "Linux" then "Linux"
  else "Unknown"

/-- Spec-side evaluator: a classification policy as the spec words it — an
ordered list of (condition, label) rules where the first matching rule
wins and a default label applies when none matches. -/
def firstMatch (rules : List ((String → Bool) × String)) (dflt : String)
    (ua : String) : String :=
  match rules with
  | [] => dflt
  | (c, l) :: rest => if c ua then l else firstMatch rest dflt ua

/-- Spec-side rule table for the browser label, transcribed from the
spec's ordered browser rules. -/
def browserRules : List ((String → Bool) × String) :=
  [(fun ua => goContains ua "OPR" || goContains ua "Opera", "Opera"),
   (fun ua => goContains ua "Edg" || goContains ua "Edge", "Edge"),
   (fun ua => goContains ua "Chrome" && !goContains ua "Chromium", "Chrome"),
   (fun ua => goContains ua "Chromium", "Chromium"),
   (fun ua => goContains ua "Firefox", "Firefox"),
   (fun ua => goContains ua "Safari" && !goContains ua "Chrome", "Safari"),
   (fun ua => goContains ua "MSIE" || goContains ua "Trident", "Internet Explorer")]

/-- Spec-side rule table for the OS label, transcribed from the spec's
ordered OS rules. -/
def osRules : List ((String → Bool) × String) :=
  [(fun ua => goContains ua "Windows", "Windows"),
   (fun ua => goContains ua "Macintosh", "macOS"),
   (fun ua => goContains ua "Android", "Android"),
   (fun ua => goContains ua "iPhone" || goContains ua "iPad", "iOS"),
   (fun ua => goContains ua "Linux", "Linux")]

/-- Embedding of the greeting handler `handler` (hello_server.go lines
26–35): default the `name` query parameter to `"Guest"`, answer
`"Hello, {name}\n"` with the implicit 200 status. -/
def helloHandler (r : Request) : Response :=
  let name := assocGet r.query "name"
  let name := if name = "" then "Guest" else name
  { status := 200, body := "Hello, " ++ name ++ "\x0a" }

/-- Embedding of `echoHandler` (hello_server.go lines 262–285).  `GET`
answers the `msg` query parameter (or `"no message"`) through
`fmt.Fprintln`, which appends a newline; any other method reads the body:
a failed read is answered by `http.Error(..., 400)` (which also appends a
newline), an empty body by `"empty body\n"`, and otherwise the body bytes
are written back verbatim. -/
def echoHandler (r : Request) : Response :=
  if r.method = Method.GET then
    let msg := assocGet r.query "msg"
    if msg = "" then { status := 200, body := "no message\x0a" }
    else { status := 200, body := msg ++ "\x0a" }
  else
    match r.body with
    | none => { status := 400, body := "failed to read body\x0a" }
    | some b =>
      if b = "" then { status := 200, body := "empty body\x0a" }
      else { status := 200, body := b }

/-- Outcome of one cache lookup, as seen through
`rdb.Get(ctx, key).Result()`: a value, the `redis.Nil` not-found
sentinel, or any other error. -/
inductive CacheResult
  | found (v : String)
  | missing
  | failed
  deriving DecidableEq, Repr

/-- Embedding of `redisHandler` (hello_server.go lines 151–170), with the
cache collaborator abstracted as a function from key to lookup outcome.
`http.Error` appends a newline to its message; the success path writes the
value through `fmt.Fprintln`. -/
def redisHandler (cache : String → CacheResult) (r : Request) : Response :=
  let key := assocGet r.query "key"
  if key = "" then
    { status := 400, body := "Query parameter \x27key\x27 is required\x0a" }
  else
    match cache key with
    | CacheResult.missing =>
      { status := 404, body := "Key \x27" ++ key ++ "\x27 not found\x0a" }
    | CacheResult.failed =>
      { status := 500, body := "Failed to retrieve data from Redis\x0a" }
    | CacheResult.found v =>
      { status := 200, body := v ++ "\x0a" }

/-- Most-significant-first accumulation of a decimal digit run; `none` on
the first non-digit character. -/
def digitsValAux (acc : Nat) : List Char → Option Nat
  | [] => some acc
  | c :: rest =>
    if c.isDigit then digitsValAux (acc * 10 + (c.toNat - 48)) rest
    else none

/-- Value of a non-empty run of decimal digits, `none` otherwise. -/
def digitsVal : List Char → Option Nat
  | [] => none
  | l => digitsValAux 0 l

/-- Embedding of Go `strconv.Atoi`: optional sign, decimal digits, error
(`none`) on empty input, stray characters, or a value outside the 64-bit
signed range. -/
def goAtoi (s : String) : Option Int :=
  match s.toList with
  | '+' :: rest =>
    (digitsVal rest).bind fun n =>
      if n ≤ 2 ^ 63 - 1 then some (Int.ofNat n) else none
  | '-' :: rest =>
    (digitsVal rest).bind fun n =>
      if n ≤ 2 ^ 63 then some (-(Int.ofNat n)) else none
  | l =>
    (digitsVal l).bind fun n =>
      if n ≤ 2 ^ 63 - 1 then some (Int.ofNat n) else none

/-- The fields of `redis.Options` that `initRedis` fills in. -/
structure RedisOptions where
  addr : String
  password : String
  db : Int
  deriving DecidableEq, Repr

/-- Embedding of the configuration part of `initRedis` (hello_server.go
lines 105–125), with the environment abstracted as a function from
variable name to value (`""` = unset, as `os.Getenv` reports).  The code
computes `addr` from `REDIS_ADDR` (with a default), and the database index
from `REDIS_DB` (default `"0"`, `log.Fatalf` — modelled as `none` — on a
value `strconv.Atoi` rejects), but the `redis.Options` it then builds uses
a hard-coded address and password; the computed `addr` is never used. -/
def initRedisOptions (env : String → String) : Option RedisOptions :=
  let addr :=
    if env "REDIS_ADDR" = "" then
      "test-db-e2kuf-redis-master.test-db-e2kuf.svc.cluster.local:6379"
    else env "REDIS_ADDR"
  let dbStr := if env "REDIS_DB" = "" then "0" else env "REDIS_DB"
  match goAtoi dbStr with
  | none => none
  | some db =>
    let _ := addr
    some { addr := "test-g6r4t-redis-master.test-g6r4t.svc.cluster.local:6379"
           password := "cE0+mF2_sV3_cQ3+vT0-"
           db := db }

/-- Embedding of the whole of `initRedis` including the startup `Ping`
(lines 127–133): `pingOk` abstracts whether the configured store answers
the connectivity check; a failure is `log.Fatalf`, i.e. the process
terminates (`none`). -/
def initRedis (env : String → String) (pingOk : Bool) : Option RedisOptions :=
  match initRedisOptions env with
  | none => none
  | some opts => if pingOk then some opts else none

/-- The shutdown grace period of `waitForShutdown` (hello_server.go line
86): `context.WithTimeout(..., time.Second*10)`, in seconds. -/
def shutdownGraceSeconds : Nat := 10

/-- Phases of the server lifecycle around `waitForShutdown`: listening,
draining in-flight requests under a deadline, exited with a status code. -/
inductive ServerPhase
  | listening
  | draining (graceSeconds : Nat)
  | exited (code : Nat)
  deriving DecidableEq, Repr

/-- Whether new connections are accepted in a phase.  That `Shutdown`
stops the accept loop at once is the documented contract of the external
HTTP server collaborator; here it is reflected in `draining` not
accepting. -/
def accepting : ServerPhase → Bool
  | ServerPhase.listening => true
  | _ => false

/-- Transition relation of the shutdown sequence, covering both
goroutines of `main`.  `signal`: `waitForShutdown` (hello_server.go lines
78–92) receives the interrupt/termination signal and calls
`srv.Shutdown(ctx)` with the 10-second deadline, putting the server into
draining.  From draining two exits race.  `serveFatal`: the serve
goroutine (lines 67–72) runs `log.Fatal(err)` on any non-nil
`ListenAndServe` error with no `ErrServerClosed` check, and
`ListenAndServe` returns `ErrServerClosed` as soon as `Shutdown` is
called, so `log.Fatal` — `os.Exit(1)` — can fire while in-flight work is
still draining.  `shutdownDone`: `Shutdown` returns (work drained or
deadline elapsed, whichever first) and `waitForShutdown` runs
`os.Exit(0)` (line 91). -/
inductive ServerStep : ServerPhase → ServerPhase → Prop
  | signal : ServerStep ServerPhase.listening (ServerPhase.draining shutdownGraceSeconds)
  | serveFatal (g : Nat) : ServerStep (ServerPhase.draining g) (ServerPhase.exited 1)
  | shutdownDone (g : Nat) : ServerStep (ServerPhase.draining g) (ServerPhase.exited 0)

/-! ## Sample requests and environments used by closed theorems -/

/-- A request carrying an `X-Forwarded-For` list, as in the repo's
`TestGetClientIP`. -/
def reqXff : Request :=
  { method := Method.GET
    headers := [("X-Forwarded-For", "1.2.3.4, 5.6.7.8")]
    query := []
    remoteAddr := "9.9.9.9:1234"
    body := some "" }

/-- A degenerate request: no headers, empty peer address. -/
def reqBare : Request :=
  { method := Method.GET, headers := [], query := [], remoteAddr := "", body := some "" }

/-- A user-agent string matching none of the classifier's patterns. -/
def uaCurl : String := "curl/8.0.1"

/-- A `GET /echo?msg=hi` request. -/
def echoMsgReq : Request :=
  { method := Method.GET, headers := [], query := [("msg", "hi")], remoteAddr := "", body := none }

/-- A request with no query parameters at all. -/
def reqNoName : Request :=
  { method := Method.GET, headers := [], query := [], remoteAddr := "", body := none }

/-- A `GET /?name=Test` request, as in the repo's `TestHandler`. -/
def reqNameTest : Request :=
  { method := Method.GET, headers := [], query := [("name", "Test")], remoteAddr := "", body := none }

/-- A `GET /?name=` request: the parameter is present with empty value. -/
def reqNameEmpty : Request :=
  { method := Method.GET, headers := [], query := [("name", "")], remoteAddr := "", body := none }

/-- A `GET /echo?msg=` request: the parameter is present with empty value. -/
def echoMsgEmptyReq : Request :=
  { method := Method.GET, headers := [], query := [("msg", "")], remoteAddr := "", body := none }

/-- A cache in which every key is absent (`redis.Nil` on every `GET`). -/
def cacheAllMissing : String → CacheResult := fun _ => CacheResult.missing

/-- A `GET /redis?key=nope` request. -/
def reqKeyNope : Request :=
  { method := Method.GET, headers := [], query := [("key", "nope")], remoteAddr := "", body := none }

/-- An environment setting only `REDIS_ADDR`. -/
def env6 : String → String := fun k => if k = "REDIS_ADDR" then "myredis:6379" else ""

/-! ## Helper lemmas -/

/-- `goSplitList` never returns the empty list of fragments. -/
theorem goSplitList_ne_nil (sep : Char) (l : List Char) : goSplitList sep l ≠ [] := by
  cases l with
  | nil => simp [goSplitList]
  | cons c rest =>
    simp only [goSplitList]
    split
    · simp
    · split <;> simp

/-- The first fragment of a split is the run of characters before the
first separator. -/
theorem goSplitList_headD (sep : Char) (l : List Char) :
    (goSplitList sep l).headD [] = l.takeWhile (fun c => !(c == sep)) := by
  induction l with
  | nil => simp [goSplitList]
  | cons c rest ih =>
    by_cases h : c = sep
    · simp [goSplitList, h]
    · cases hgs : goSplitList sep rest with
      | nil => exact absurd hgs (goSplitList_ne_nil sep rest)
      | cons hd tl =>
        rw [hgs] at ih
        simp only [List.headD_cons] at ih
        simp [goSplitList, h, hgs, List.takeWhile_cons, ih]

/-- String-level corollary: the first element of `strings.Split(s, sep)`
is the longest separator-free starting run of `s`. -/
theorem goSplit_headD (s : String) (sep : Char) :
    (goSplit s sep).head?.getD "" = String.mk (s.toList.takeWhile (fun c => !(c == sep))) := by
  unfold goSplit
  cases hgs : goSplitList sep s.toList with
  | nil => exact absurd hgs (goSplitList_ne_nil sep s.toList)
  | cons hd tl =>
    have h := goSplitList_headD sep s.toList
    rw [hgs] at h
    simp only [List.headD_cons] at h
    simp [h]

/-- A list is a `isPrefixOf`-prefix of itself followed by anything. -/
theorem isPrefixOf_append_self (l t : List Char) : l.isPrefixOf (l ++ t) = true := by
  induction l with
  | nil => cases t <;> rfl
  | cons a as ih => simp [List.isPrefixOf, ih]

/-- A pattern occurs at the head of itself followed by anything. -/
theorem listContains_self_append (pat t : List Char) :
    listContains pat (pat ++ t) = true := by
  cases pat with
  | nil =>
    cases t with
    | nil => rfl
    | cons c cs => simp [listContains, List.isPrefixOf]
  | cons a as =>
    simp [listContains, isPrefixOf_append_self]

/-- Occurrence of a pattern is preserved by prepending characters. -/
theorem listContains_append_left (pat l1 l : List Char)
    (h : listContains pat l = true) : listContains pat (l1 ++ l) = true := by
  induction l1 with
  | nil => simpa using h
  | cons c cs ih => simp [listContains, ih]

/-- `strings.Contains` finds a string embedded between two others. -/
theorem goContains_sandwich (a k b : String) : goContains (a ++ k ++ b) k = true := by
  unfold goContains
  show listContains k.data (a ++ k ++ b).data = true
  rw [String.append_assoc, String.data_append, String.data_append]
  exact listContains_append_left _ _ _ (listContains_self_append k.data b.data)

/-! ## Claim theorems -/

/-- Claim C1: `getClientIP` resolves with first match winning — a
non-empty `X-Forwarded-For` yields its first comma-separated element with
surrounding whitespace trimmed; otherwise a non-empty `X-Real-Ip` is
returned verbatim (untrimmed, unsplit); otherwise the peer address is
parsed as `host:port`, giving the host on success and the raw peer
address unchanged on parse failure. -/
theorem getClientIP_priority (r : Request) :
    (assocGet r.headers "X-Forwarded-For" ≠ "" →
      getClientIP r =
        goTrimSpace (String.mk
          ((assocGet r.headers "X-Forwarded-For").toList.takeWhile (fun c => !(c == ','))))) ∧
    (assocGet r.headers "X-Forwarded-For" = "" →
      assocGet r.headers "X-Real-Ip" ≠ "" →
      getClientIP r = assocGet r.headers "X-Real-Ip") ∧
    (assocGet r.headers "X-Forwarded-For" = "" →
      assocGet r.headers "X-Real-Ip" = "" →
      getClientIP r = (splitHostPort r.remoteAddr).elim r.remoteAddr Prod.fst) := by
  refine ⟨?_, ?_, ?_⟩
  · intro h
    simp [getClientIP, h, goSplit_headD]
  · intro h1 h2
    simp [getClientIP, h1, h2]
  · intro h1 h2
    cases hsp : splitHostPort r.remoteAddr <;> simp [getClientIP, h1, h2, hsp]

/-- Witness for C1: the `X-Forwarded-For` branch at a concrete request
returns the trimmed first list element `"1.2.3.4"`. -/
theorem getClientIP_priority_witness :
    assocGet reqXff.headers "X-Forwarded-For" ≠ "" ∧ getClientIP reqXff = "1.2.3.4" := by
  refine ⟨by decide, ?_⟩
  have h := (getClientIP_priority reqXff).1 (by decide)
  rw [h]
  decide

/-- Counterexample to C2 as stated: with no forwarding headers and an
empty peer address, `getClientIP` returns the empty string. -/
theorem getClientIP_can_be_empty : getClientIP reqBare = "" := by decide

/-- Claim C2 (amended): `getClientIP` always resolves to a string without
signaling an error, but the string is not always non-empty — it is empty
exactly when the branch taken produces an empty value: a whitespace-only
first `X-Forwarded-For` element, or, with neither forwarding header set,
a peer address that parses with an empty host or is empty and
unparseable.  In particular the `X-Real-Ip` branch never yields the empty
string. -/
theorem getClientIP_empty_characterisation (r : Request) :
    getClientIP r = "" ↔
      (assocGet r.headers "X-Forwarded-For" ≠ "" ∧
        goTrimSpace (String.mk
          ((assocGet r.headers "X-Forwarded-For").toList.takeWhile (fun c => !(c == ',')))) = "") ∨
      (assocGet r.headers "X-Forwarded-For" = "" ∧
        assocGet r.headers "X-Real-Ip" = "" ∧
        (splitHostPort r.remoteAddr).elim (r.remoteAddr = "") (fun hp => hp.fst = "")) := by
  by_cases h1 : assocGet r.headers "X-Forwarded-For" = ""
  · by_cases h2 : assocGet r.headers "X-Real-Ip" = ""
    · cases hsp : splitHostPort r.remoteAddr <;> simp [getClientIP, h1, h2, hsp]
    · simp [getClientIP, h1, h2]
  · simp [getClientIP, h1, goSplit_headD]

/-- Claim C3: for every user-agent string, the source classifier computes
the browser and OS labels as the first matching rule of the spec's
ordered rule tables, with default label `"Unknown"`. -/
theorem classify_firstMatch (ua : String) :
    classifyBrowser ua = firstMatch browserRules "Unknown" ua ∧
    classifyOS ua = firstMatch osRules "Unknown" ua :=
  ⟨rfl, rfl⟩

/-- Claim C4 counterexample: for `GET /echo?msg=hi` the body is
`"hi\n"` (the handler writes through `fmt.Fprintln`), not the msg value
`"hi"` itself as the claim states. -/
theorem echo_get_msg_not_verbatim :
    assocGet echoMsgReq.query "msg" = "hi" ∧ (echoHandler echoMsgReq).body ≠ "hi" := by decide

/-- Claim C4 (amended): for `GET`, the echo body is the `msg` query
parameter followed by a newline when present, else `"no message\n"`; for
`POST`, the body is echoed verbatim when non-empty, `"empty body\n"` when
empty; and the status is 400 exactly when the request body is read and
the read fails, which happens only on the `POST` path. -/
theorem echoHandler_behaviour (r : Request) :
    (r.method = Method.GET → assocGet r.query "msg" ≠ "" →
      echoHandler r = { status := 200, body := assocGet r.query "msg" ++ "\x0a" }) ∧
    (r.method = Method.GET → assocGet r.query "msg" = "" →
      echoHandler r = { status := 200, body := "no message\x0a" }) ∧
    (∀ b, r.method = Method.POST → r.body = some b → b ≠ "" →
      echoHandler r = { status := 200, body := b }) ∧
    (r.method = Method.POST → r.body = some "" →
      echoHandler r = { status := 200, body := "empty body\x0a" }) ∧
    ((echoHandler r).status = 400 ↔ r.method = Method.POST ∧ r.body = none) := by
  refine ⟨?_, ?_, ?_, ?_, ?_⟩
  · intro hm hq
    simp [echoHandler, hm, hq]
  · intro hm hq
    simp [echoHandler, hm, hq]
  · intro b hm hb hne
    simp [echoHandler, hm, hb, hne]
  · intro hm hb
    simp [echoHandler, hm, hb]
  · cases hm : r.method <;> cases hb : r.body <;>
      simp [echoHandler, hm, hb] <;> split <;> simp

/-- Witness for C4: the `GET` branch at `msg=hi` answers
`"hi\n"` with status 200. -/
theorem echoHandler_behaviour_witness :
    echoHandler echoMsgReq = { status := 200, body := "hi\x0a" } := by
  have h := (echoHandler_behaviour echoMsgReq).1 (by decide) (by decide)
  rw [h]
  decide

/-- Claim C5: the cache-lookup handler answers 400 with a message naming
the `key` parameter when it is missing; 404 with the message
`Key '{key}' not found` (which contains the requested key) on a miss;
500 with a generic fixed message on any other cache error; and the cached
value plus a newline with status 200 on success. -/
theorem redisHandler_behaviour (cache : String → CacheResult) (r : Request) :
    (assocGet r.query "key" = "" →
      redisHandler cache r =
        { status := 400, body := "Query parameter \x27key\x27 is required\x0a" } ∧
      goContains (redisHandler cache r).body "key" = true) ∧
    (∀ k, assocGet r.query "key" = k → k ≠ "" → cache k = CacheResult.missing →
      redisHandler cache r = { status := 404, body := "Key \x27" ++ k ++ "\x27 not found\x0a" } ∧
      goContains (redisHandler cache r).body k = true) ∧
    (assocGet r.query "key" ≠ "" →
      cache (assocGet r.query "key") = CacheResult.failed →
      redisHandler cache r = { status := 500, body := "Failed to retrieve data from Redis\x0a" }) ∧
    (∀ v, assocGet r.query "key" ≠ "" →
      cache (assocGet r.query "key") = CacheResult.found v →
      redisHandler cache r = { status := 200, body := v ++ "\x0a" }) := by
  refine ⟨?_, ?_, ?_, ?_⟩
  · intro h
    refine ⟨by simp [redisHandler, h], ?_⟩
    have hb : redisHandler cache r =
        { status := 400, body := "Query parameter \x27key\x27 is required\x0a" } := by
      simp [redisHandler, h]
    rw [hb]
    decide
  · intro k hk hne hc
    subst hk
    have hb : redisHandler cache r =
        { status := 404
          body := "Key \x27" ++ assocGet r.query "key" ++ "\x27 not found\x0a" } := by
      simp [redisHandler, hne, hc]
    refine ⟨hb, ?_⟩
    rw [hb]
    exact goContains_sandwich "Key \x27" (assocGet r.query "key") "\x27 not found\x0a"
  · intro hne hc
    simp [redisHandler, hne, hc]
  · intro v hne hc
    simp [redisHandler, hne, hc]

/-- Witness for C5: looking up an absent key answers 404 with the key
named in the message. -/
theorem redisHandler_behaviour_witness :
    redisHandler cacheAllMissing reqKeyNope =
      { status := 404, body := "Key \x27nope\x27 not found\x0a" } := by
  have h := ((redisHandler_behaviour cacheAllMissing reqKeyNope).2.1 "nope"
    (by decide) (by decide) rfl).1
  exact h.trans (by decide)

/-- Claim C6 divergence: the code reads `REDIS_ADDR`, yet the client
options it builds carry a hard-coded address (and password), so the
address used to connect is not the environment value; the `REDIS_DB`
default of 0 and the fatal ping are honoured. -/
theorem initRedis_addr_hardcoded :
    env6 "REDIS_ADDR" = "myredis:6379" ∧
    (initRedis env6 true).map RedisOptions.addr =
      some "test-g6r4t-redis-master.test-g6r4t.svc.cluster.local:6379" ∧
    (initRedis env6 true).map RedisOptions.addr ≠ some (env6 "REDIS_ADDR") ∧
    (initRedis env6 true).map RedisOptions.db = some 0 ∧
    initRedis env6 false = none := by
  refine ⟨rfl, ?_, ?_, ?_, ?_⟩ <;> decide

/-- Claim C7: the greeting handler always answers status 200 with body
`Hello, {name}` plus newline, where `name` defaults to `"Guest"` when the
query parameter is absent; concretely, no parameter gives
`"Hello, Guest\n"` and `name=Test` gives `"Hello, Test\n"`. -/
theorem helloHandler_greeting :
    (∀ r : Request, (helloHandler r).status = 200) ∧
    (∀ r : Request, assocGet r.query "name" = "" →
      (helloHandler r).body = "Hello, Guest\x0a") ∧
    (∀ r : Request, assocGet r.query "name" ≠ "" →
      (helloHandler r).body = "Hello, " ++ assocGet r.query "name" ++ "\x0a") ∧
    (helloHandler reqNoName).body = "Hello, Guest\x0a" ∧
    (helloHandler reqNameTest).body = "Hello, Test\x0a" := by
  refine ⟨fun r => rfl, ?_, ?_, by decide, by decide⟩
  · intro r h
    simp [helloHandler, h]
  · intro r h
    simp [helloHandler, h]

/-- Witness for C7: `name=Test` answers `"Hello, Test\n"`. -/
theorem helloHandler_greeting_witness :
    (helloHandler reqNameTest).body = "Hello, Test\x0a" := by
  have h := helloHandler_greeting.2.2.1 reqNameTest (by decide)
  exact h.trans (by decide)

/-- Claim C8 divergence: on the signal the server does enter the
non-accepting draining phase with the 10-second grace period, but from
there the lifecycle admits an exit with status 1 — the serve goroutine's
`log.Fatal` on the `ErrServerClosed` that `Shutdown` provokes — racing
with `waitForShutdown`'s exit 0, so "exits with status 0" is not what the
code guarantees while in-flight work drains. -/
theorem shutdown_exit_code_race :
    ServerStep ServerPhase.listening (ServerPhase.draining 10) ∧
    accepting (ServerPhase.draining 10) = false ∧
    shutdownGraceSeconds = 10 ∧
    ServerStep (ServerPhase.draining 10) (ServerPhase.exited 1) ∧
    ServerStep (ServerPhase.draining 10) (ServerPhase.exited 0) ∧
    (ServerPhase.exited 1 : ServerPhase) ≠ ServerPhase.exited 0 :=
  ⟨ServerStep.signal, rfl, rfl, ServerStep.serveFatal 10,
    ServerStep.shutdownDone 10, by decide⟩

/-- Claim C9: every classifier output is drawn from the closed label
sets, and when no substring rule matches the label is `"Unknown"`. -/
theorem classify_labels_closed (ua : String) :
    classifyBrowser ua ∈
      (["Opera", "Edge", "Chrome", "Chromium", "Firefox", "Safari",
        "Internet Explorer", "Unknown"] : List String) ∧
    classifyOS ua ∈
      (["Windows", "macOS", "Android", "iOS", "Linux", "Unknown"] : List String) ∧
    (goContains ua "OPR" = false → goContains ua "Opera" = false →
      goContains ua "Edg" = false → goContains ua "Edge" = false →
      goContains ua "Chrome" = false → goContains ua "Chromium" = false →
      goContains ua "Firefox" = false → goContains ua "Safari" = false →
      goContains ua "MSIE" = false → goContains ua "Trident" = false →
      classifyBrowser ua = "Unknown") ∧
    (goContains ua "Windows" = false → goContains ua "Macintosh" = false →
      goContains ua "Android" = false → goContains ua "iPhone" = false →
      goContains ua "iPad" = false → goContains ua "Linux" = false →
      classifyOS ua = "Unknown") := by
  refine ⟨?_, ?_, ?_, ?_⟩
  · unfold classifyBrowser
    split_ifs <;> simp
  · unfold classifyOS
    split_ifs <;> simp
  · intro h1 h2 h3 h4 h5 h6 h7 h8 h9 h10
    simp [classifyBrowser, h1, h2, h3, h4, h5, h6, h7, h8, h9, h10]
  · intro h1 h2 h3 h4 h5 h6
    simp [classifyOS, h1, h2, h3, h4, h5, h6]

/-- Witness for C9: a user-agent matching no rule gets both default
labels. -/
theorem classify_labels_closed_witness :
    classifyBrowser uaCurl = "Unknown" ∧ classifyOS uaCurl = "Unknown" := by
  have h := classify_labels_closed uaCurl
  exact ⟨h.2.2.1 (by decide) (by decide) (by decide) (by decide) (by decide)
      (by decide) (by decide) (by decide) (by decide) (by decide),
    h.2.2.2 (by decide) (by decide) (by decide) (by decide) (by decide) (by decide)⟩

/-- Claim C10: query parameters with an empty value behave like absent
parameters — `name=` greets `Guest` and `msg=` echoes `no message`,
identically to requests omitting the parameter. -/
theorem empty_params_treated_as_absent :
    helloHandler reqNameEmpty = helloHandler reqNoName ∧
    (helloHandler reqNameEmpty).body = "Hello, Guest\x0a" ∧
    echoHandler echoMsgEmptyReq = echoHandler reqNoName ∧
    (echoHandler echoMsgEmptyReq).body = "no message\x0a" := by decide

end GoDocker
